import Mathlib

/-!
Verification of the process-monitoring utility in `Problem 1/problem1.py`.

The script launches a target executable with `psutil.Popen`, registers an
`atexit` cleanup that kills the child, writes a CSV header, and then loops:
each cycle calls `collect_data` (CPU percent, memory info, handle/fd count,
gathered inside a `oneshot` context) and on success writes one CSV line via
`write_line`; a `psutil.NoSuchProcess` ends the loop with `sys.exit()`.

The embedding below is a faithful shallow translation.  Python's ambient
effects are made explicit:
  * OS process introspection is an oracle (`ProcMetrics` carried by `Proc`;
    a `Proc` whose `state` is `none` has exited, so metric calls raise
    `NoSuchProcess`);
  * the wall clock consulted by `datetime.now().timestamp()` is a function
    `clock : Nat -> Rat` giving the value returned by the n-th call;
  * the module-global variables `p` and `data` are explicit `Option`
    parameters (`none` models the unbound state, whose access raises
    `NameError`);
  * the outcome of each iteration's psutil calls is an element of
    `PollOutcome` supplied by the environment, and a run's observable
    behaviour is folded into a `RunResult`.
-/

namespace Problem1

/-- Result of `psutil.Process.memory_info()`: on Windows index 0 is the
working set and index 1 the private bytes; on Linux index 0 is RSS and
index 1 VMS.  The script only ever uses indices 0 and 1. -/
structure MemInfo where
  mem0 : Nat
  mem1 : Nat
deriving DecidableEq

/-- Oracle for the OS metrics of a live process at one poll instant. -/
structure ProcMetrics where
  cpu_percent : Rat
  memory_info : MemInfo
  num_handles : Nat
  num_fds : Nat
deriving DecidableEq

/-- A `psutil.Popen` handle: the pid and, if the process is still alive,
the metrics the OS would report for it (`none` means it has exited, so
any metric query raises `psutil.NoSuchProcess`). -/
structure Proc where
  pid : Nat
  state : Option ProcMetrics
deriving DecidableEq

/-- The Python exceptions the embedded fragments can raise. -/
inductive PyError where
  | nameError (name : String)
  | noSuchProcess
deriving DecidableEq

/-- The dict built by `collect_data`: keys `cpu`, `memory`, `files`. -/
structure SampleDict where
  cpu : Rat
  memory : MemInfo
  files : Nat
deriving DecidableEq

/-- Which psutil metric call a query event is. -/
inductive QueryKind where
  | cpuPercent
  | memoryInfo
  | numHandles
  | numFds
deriving DecidableEq

/-- One OS metric query issued during `collect_data`: the pid it targets,
the pid whose `oneshot()` caching context is active while it runs, and
which metric it reads. -/
structure QueryEvent where
  target : Nat
  oneshotOwner : Nat
  kind : QueryKind
deriving DecidableEq

/-- `collect_data(proc, interval, windows_platform)` from the source.

```python
res = dict()
with p.oneshot():                       # NOTE: global p, not proc
    res["cpu"] = proc.cpu_percent(interval)
    res["memory"] = proc.memory_info()
    if windows_platform:
        res["files"] = proc.num_handles()
    else:
        res["files"] = proc.num_fds()
return res
```

`pGlobal` is the module-global `p` (`none` = unbound, so evaluating
`p.oneshot()` raises `NameError`).  The `interval` argument is the blocking
window of `cpu_percent(interval)`; the measured value is supplied by the
`ProcMetrics` oracle.  Besides the dict we return the trace of metric
queries, each tagged with the pid of the process whose oneshot context
was active. -/
def collect_data (pGlobal : Option Proc) (proc : Proc) (interval : Rat)
    (windows_platform : Bool) : Except PyError (SampleDict × List QueryEvent) :=
  match pGlobal with
  | none => Except.error (PyError.nameError "p")
  | some pg =>
    match proc.state with
    | none => Except.error PyError.noSuchProcess
    | some m =>
      Except.ok
        ({ cpu := m.cpu_percent
         , memory := m.memory_info
         , files := if windows_platform then m.num_handles else m.num_fds },
         [ ⟨proc.pid, pg.pid, QueryKind.cpuPercent⟩
         , ⟨proc.pid, pg.pid, QueryKind.memoryInfo⟩
         , ⟨proc.pid, pg.pid,
            if windows_platform then QueryKind.numHandles else QueryKind.numFds⟩ ])

/-- `write_header(f, windows_platform)` from the source: the single string
written (and flushed) to the log file. -/
def write_header (windows_platform : Bool) : String :=
  "timestamp,cpu," ++ (if windows_platform then "working_set" else "rss") ++ ","
    ++ (if windows_platform then "private_bytes" else "vms") ++ ","
    ++ (if windows_platform then "open_handles" else "file_descriptors") ++ "\n"

/-- One CSV data line, field by field, exactly the five local variables of
`write_line` in source order: `timestamp, cpu, wss, rss, fil`. -/
structure CsvRow where
  timestamp : Rat
  cpu : Rat
  wss : Nat
  rss : Nat
  fil : Nat
deriving DecidableEq

/-- The string `write_line` writes for a row (the f-string on line 82). -/
def renderRow (r : CsvRow) : String :=
  toString r.timestamp ++ "," ++ toString r.cpu ++ "," ++ toString r.wss ++ ","
    ++ toString r.rss ++ "," ++ toString r.fil ++ "\n"

/-- `write_line(f, d)` from the source.

```python
timestamp = datetime.now().timestamp()
cpu = d['cpu']
wss = data['memory'][0]                 # NOTE: global data, not d
rss = data['memory'][1]
fil = data['files']
f.write(f"...")
f.flush()
```

`dataGlobal` is the module-global `data` (`none` = unbound: the lookup
`data['memory']` raises `NameError` and nothing is written), `now` the
value `datetime.now().timestamp()` returns in this call. -/
def write_line (dataGlobal : Option SampleDict) (d : SampleDict) (now : Rat) :
    Except PyError CsvRow :=
  let timestamp := now
  let cpu := d.cpu
  match dataGlobal with
  | none => Except.error (PyError.nameError "data")
  | some data => Except.ok ⟨timestamp, cpu, data.memory.mem0, data.memory.mem1, data.files⟩

/-- State of the launched child process as observable by the monitor.
The monitor never calls `wait()` on the child, so an exited child stays a
zombie for the monitor's lifetime and `os.kill` (hence `psutil`'s `kill`)
still succeeds on it; the reaped/pid-recycled states are unreachable while
the monitor runs. -/
inductive ChildState where
  | running
  | exitedUnreaped
  | killed
deriving DecidableEq

/-- `stop_process(proc)` from the source: prints a notice and calls
`proc.kill()` (SIGKILL, best effort).  Returns the child state afterwards
and the exception raised, if any. -/
def stop_process (s : ChildState) : ChildState × Option PyError :=
  match s with
  | ChildState.running => (ChildState.killed, none)
  | ChildState.exitedUnreaped => (ChildState.exitedUnreaped, none)
  | ChildState.killed => (ChildState.killed, none)

/-- `run_process(pth)` from the source: `psutil.Popen(pth)` either yields a
handle or raises; on any exception the script prints it and calls
`sys.exit(1)`.  The input models the spawn outcome; the error carries the
printed message and the exit status. -/
def run_process (popenResult : Except String Proc) : Except (String × Nat) Proc :=
  match popenResult with
  | Except.error e => Except.error (e, 1)
  | Except.ok pop => Except.ok pop

/-- Outcome of one iteration's psutil calls, supplied by the environment:
the process was alive and reported metrics `m`; it was gone
(`psutil.NoSuchProcess`); or some other exception escaped (no other
exception type is caught by the loop). -/
inductive PollOutcome where
  | success (m : ProcMetrics)
  | processGone
  | otherError
deriving DecidableEq

/-- How the `while True` loop ended: `sys.exit()` after
`psutil.NoSuchProcess`; an unhandled exception; or an external interrupt
(modelled as the environment providing no further poll outcomes). -/
inductive LoopEnd where
  | processGoneExit
  | unhandledError
  | interrupted
deriving DecidableEq

/-- The `while True` loop of `__main__` (lines 116-127).  Each iteration
binds the global `data` to the result of `collect_data(p, ...)` and, on
success, calls `write_line(args.log, data)`; `psutil.NoSuchProcess` prints
a notice and calls `sys.exit()`.  `pid` is the pid of the global `p`,
`n` counts the `write_line` calls already made (it indexes `clock`).
Returns the rows written, the number of `collect_data` calls made, and how
the loop ended. -/
def samplingLoop (pid : Nat) (interval : Rat) (win : Bool) (clock : Nat → Rat) :
    List PollOutcome → Nat → List CsvRow × Nat × LoopEnd
  | [], _ => ([], 0, LoopEnd.interrupted)
  | PollOutcome.success m :: rest, n =>
    match collect_data (some ⟨pid, some m⟩) ⟨pid, some m⟩ interval win with
    | Except.ok (d, _) =>
      match write_line (some d) d (clock n) with
      | Except.ok row =>
        let r := samplingLoop pid interval win clock rest (n + 1)
        (row :: r.1, r.2.1 + 1, r.2.2)
      | Except.error _ => ([], 1, LoopEnd.unhandledError)
    | Except.error _ => ([], 1, LoopEnd.unhandledError)
  | PollOutcome.processGone :: _, _ => ([], 1, LoopEnd.processGoneExit)
  | PollOutcome.otherError :: _, _ => ([], 1, LoopEnd.unhandledError)

/-- The run environment: everything the outside world feeds the script.
`launch` is the outcome of `psutil.Popen`; `polls` the successive outcomes
of the loop's psutil calls (a finite observed prefix — exhausting it
models an external interrupt); `childAliveAtEnd` tells whether the child
is still alive when an abnormal end (error/interrupt) occurs. -/
structure Env where
  platformSystem : String
  executable : String
  interval : Rat
  verbose : Bool
  launch : Except String Proc
  polls : List PollOutcome
  childAliveAtEnd : Bool

/-- Platform detection in `__main__`: `win = (platform.system() == 'Windows')`. -/
def detect_win (platformSystem : String) : Bool := platformSystem == "Windows"

/-- The platform notice printed by `__main__` (text abridged for the
unsupported-platform branch). -/
def platformMessage (s : String) : String :=
  if s == "Windows" then "Windows platform detected"
  else if s == "Linux" then "Linux platform detected"
  else "Platform " ++ s ++ " is not supported, defaulting to Linux methods, may not work as expected"

/-- Observable result of one run of the script: console lines printed
before/at launch, the byte-accurate sequence of strings written to the log
sink, the structured rows behind the data lines, the number of
`collect_data` calls, the process exit status, how many times the `atexit`
cleanup (`stop_process`) ran, and the child's final state (`none` when the
launch failed and no child exists). -/
structure RunResult where
  console : List String
  sink : List String
  rows : List CsvRow
  pollCount : Nat
  exitCode : Nat
  cleanupRuns : Nat
  childFinal : Option ChildState

/-- `__main__` (lines 92-127).  Order of effects, as in the source:
platform detection and prints, `run_process` (exits 1 on failure, before
anything is written to the log), `atexit.register(stop_process, p)`,
`write_header`, then the sampling loop.  On every exit path reached after
registration the interpreter runs the single registered cleanup exactly
once.  `sys.exit()` gives status 0, an unhandled exception status 1, a
keyboard interrupt the shell-visible status 130. -/
def main_run (env : Env) (clock : Nat → Rat) : RunResult :=
  let win := detect_win env.platformSystem
  let pmsg := platformMessage env.platformSystem
  let startMsg := "Starting executable from path " ++ env.executable
  match run_process env.launch with
  | Except.error (e, code) =>
    { console := [pmsg, startMsg, e]
    , sink := []
    , rows := []
    , pollCount := 0
    , exitCode := code
    , cleanupRuns := 0
    , childFinal := none }
  | Except.ok pr =>
    let res := samplingLoop pr.pid env.interval win clock env.polls 0
    let preExit : ChildState :=
      match res.2.2 with
      | LoopEnd.processGoneExit => ChildState.exitedUnreaped
      | _ => if env.childAliveAtEnd then ChildState.running else ChildState.exitedUnreaped
    let cleaned := stop_process preExit
    { console := [pmsg, startMsg, "Collecting data..."]
    , sink := write_header win :: res.1.map renderRow
    , rows := res.1
    , pollCount := res.2.1
    , exitCode :=
        match res.2.2 with
        | LoopEnd.processGoneExit => 0
        | LoopEnd.unhandledError => 1
        | LoopEnd.interrupted => 130
    , cleanupRuns := 1
    , childFinal := some cleaned.1 }

/-! Specification-side helpers used to state the claims. -/

/-- The sample dict a successful `collect_data` produces for metrics `m`
under strategy `win` (specification-side restatement of the dict built in
`collect_data`). -/
def sampleOf (win : Bool) (m : ProcMetrics) : SampleDict :=
  { cpu := m.cpu_percent
  , memory := m.memory_info
  , files := if win then m.num_handles else m.num_fds }

/-- Metrics of the maximal prefix of successful polls (the polls that
produce records before the first failure ends the loop). -/
def successStreak : List PollOutcome → List ProcMetrics
  | [] => []
  | PollOutcome.success m :: rest => m :: successStreak rest
  | PollOutcome.processGone :: _ => []
  | PollOutcome.otherError :: _ => []

/-- The rows the loop is expected to write for successful metrics `ms`
starting at write index `n`: one complete row per successful poll, stamped
with the clock value at its write. -/
def rowsFor (win : Bool) (clock : Nat → Rat) : List ProcMetrics → Nat → List CsvRow
  | [], _ => []
  | m :: ms, n =>
    ⟨clock n, (sampleOf win m).cpu, (sampleOf win m).memory.mem0,
      (sampleOf win m).memory.mem1, (sampleOf win m).files⟩ :: rowsFor win clock ms (n + 1)

/-- A query trace is a logically-atomic snapshot of process `pid` when it
is non-empty, every query targets `pid`, and every query runs inside the
oneshot caching context of that same `pid`. -/
def atomicSnapshot (pid : Nat) (evs : List QueryEvent) : Bool :=
  !evs.isEmpty && evs.all (fun e => e.target == pid && e.oneshotOwner == pid)

/-- Splits a character list at commas (accumulator holds the current field
reversed). -/
def splitCommaAux : List Char → List Char → List (List Char)
  | [], acc => [acc.reverse]
  | c :: cs, acc =>
    if c = ',' then acc.reverse :: splitCommaAux cs [] else splitCommaAux cs (c :: acc)

/-- The comma-separated fields of the header line, final newline stripped. -/
def headerFields (windows_platform : Bool) : List String :=
  (splitCommaAux ((write_header windows_platform).dropRight 1).toList []).map
    (fun l => String.mk l)

/-! Loop characterization lemmas. -/

/-- The rows the loop writes are exactly one per successful poll of the
maximal successful prefix, in order, and nothing for any failed cycle. -/
theorem samplingLoop_rows (pid : Nat) (interval : Rat) (win : Bool) (clock : Nat → Rat) :
    ∀ (polls : List PollOutcome) (n : Nat),
      (samplingLoop pid interval win clock polls n).1
        = rowsFor win clock (successStreak polls) n := by
  intro polls
  induction polls with
  | nil => intro n; simp [samplingLoop, successStreak, rowsFor]
  | cons head rest ih =>
    intro n
    cases head with
    | success m =>
      simp [samplingLoop, collect_data, write_line, successStreak, rowsFor, sampleOf, ih]
    | processGone => simp [samplingLoop, successStreak, rowsFor]
    | otherError => simp [samplingLoop, successStreak, rowsFor]

/-- Full description of a run of the loop whose polls are a block of
successes followed by a process-gone detection: one row per success, one
extra (failed) poll, and a clean `processGoneExit` end — whatever follows
the detection is never polled. -/
theorem samplingLoop_gone (pid : Nat) (interval : Rat) (win : Bool) (clock : Nat → Rat) :
    ∀ (ms : List ProcMetrics) (rest : List PollOutcome) (n : Nat),
      samplingLoop pid interval win clock
          (ms.map PollOutcome.success ++ PollOutcome.processGone :: rest) n
        = (rowsFor win clock ms n, ms.length + 1, LoopEnd.processGoneExit) := by
  intro ms
  induction ms with
  | nil => intro rest n; simp [samplingLoop, rowsFor]
  | cons m ms ih =>
    intro rest n
    simp [samplingLoop, collect_data, write_line, rowsFor, sampleOf, ih rest (n + 1)]

/-- `stop_process` never leaves the child in the running state. -/
theorem stop_process_not_running (s : ChildState) :
    (stop_process s).1 ≠ ChildState.running := by
  cases s <;> simp [stop_process]

/-- Unfolding of `main_run` on a successful launch. -/
theorem main_run_ok (env : Env) (pr : Proc) (clock : Nat → Rat)
    (h : env.launch = Except.ok pr) :
    main_run env clock
      = (let win := detect_win env.platformSystem
         let res := samplingLoop pr.pid env.interval win clock env.polls 0
         let preExit : ChildState :=
           match res.2.2 with
           | LoopEnd.processGoneExit => ChildState.exitedUnreaped
           | _ => if env.childAliveAtEnd then ChildState.running
                  else ChildState.exitedUnreaped
         { console := [platformMessage env.platformSystem,
                       "Starting executable from path " ++ env.executable,
                       "Collecting data..."]
         , sink := write_header win :: res.1.map renderRow
         , rows := res.1
         , pollCount := res.2.1
         , exitCode :=
             match res.2.2 with
             | LoopEnd.processGoneExit => 0
             | LoopEnd.unhandledError => 1
             | LoopEnd.interrupted => 130
         , cleanupRuns := 1
         , childFinal := some (stop_process preExit).1 }) := by
  simp only [main_run, run_process, h]

/-! Concrete objects used by the witness runs. -/

/-- Concrete metrics for witness runs. -/
def m0 : ProcMetrics :=
  { cpu_percent := 5, memory_info := { mem0 := 100, mem1 := 200 }
  , num_handles := 3, num_fds := 4 }

/-- Concrete live process for witness runs. -/
def pr0 : Proc := { pid := 42, state := some m0 }

/-- Concrete strictly increasing clock for witness runs. -/
def clock0 : Nat → Rat := fun n => (n : Rat)

/-- Witness environment for claim C1: one success, then an unexpected error. -/
def envC1 : Env :=
  { platformSystem := "Linux", executable := "/bin/sleep", interval := 1, verbose := false
  , launch := Except.ok pr0
  , polls := [PollOutcome.success m0, PollOutcome.otherError]
  , childAliveAtEnd := true }

/-! Claim theorems. -/

/-- Claim C1: in every run, the data records appended to the sink are
exactly one complete rendered row per successful poll of the still-live
process (the maximal successful prefix of the poll outcomes), in order; a
cycle whose sample call fails appends nothing — the sink holds only the
header and whole rendered rows. -/
theorem rows_one_per_successful_poll (env : Env) (pr : Proc) (clock : Nat → Rat)
    (h : env.launch = Except.ok pr) :
    (main_run env clock).rows
      = rowsFor (detect_win env.platformSystem) clock (successStreak env.polls) 0 ∧
    (main_run env clock).sink
      = write_header (detect_win env.platformSystem)
          :: (rowsFor (detect_win env.platformSystem) clock
                (successStreak env.polls) 0).map renderRow := by
  rw [main_run_ok env pr clock h]
  constructor
  · simp [samplingLoop_rows]
  · simp [samplingLoop_rows]

theorem rows_one_per_successful_poll_witness :
    envC1.launch = Except.ok pr0 ∧
    (main_run envC1 clock0).rows
      = rowsFor (detect_win envC1.platformSystem) clock0 (successStreak envC1.polls) 0 :=
  ⟨rfl, (rows_one_per_successful_poll envC1 pr0 clock0 rfl).1⟩

/-- Witness environment for claim C5: successful launch, no polls observed. -/
def envC5 : Env :=
  { platformSystem := "Windows", executable := "C:/app.exe", interval := 1, verbose := false
  , launch := Except.ok pr0, polls := [], childAliveAtEnd := true }

/-- Claim C5: on every run with a successful launch the header is written
exactly once, as the first string in the sink, before any data row; it has
exactly five comma-separated columns in the fixed order
`timestamp, cpu, <mem1>, <mem2>, <handles>`, with Windows-strategy names
`working_set, private_bytes, open_handles` and otherwise
`rss, vms, file_descriptors` — same count and order for both strategies. -/
theorem header_once_schema_stable (env : Env) (pr : Proc) (clock : Nat → Rat)
    (h : env.launch = Except.ok pr) :
    (main_run env clock).sink
      = write_header (detect_win env.platformSystem)
          :: (main_run env clock).rows.map renderRow ∧
    headerFields true = ["timestamp", "cpu", "working_set", "private_bytes", "open_handles"] ∧
    headerFields false = ["timestamp", "cpu", "rss", "vms", "file_descriptors"] ∧
    (headerFields true).length = 5 ∧ (headerFields false).length = 5 := by
  refine ⟨?_, by decide, by decide, by decide, by decide⟩
  rw [main_run_ok env pr clock h]

theorem header_once_schema_stable_witness :
    envC5.launch = Except.ok pr0 ∧
    (main_run envC5 clock0).sink
      = write_header (detect_win envC5.platformSystem)
          :: (main_run envC5 clock0).rows.map renderRow :=
  ⟨rfl, (header_once_schema_stable envC5 pr0 clock0 rfl).1⟩

/-- Witness environment for claim C6: the spawn fails. -/
def envC6 : Env :=
  { platformSystem := "Linux", executable := "/no/such/file", interval := 1, verbose := false
  , launch := Except.error "No such file or directory", polls := [], childAliveAtEnd := false }

/-- Claim C6: when the executable cannot be spawned the cause is printed,
the program exits immediately with status 1 (non-zero), no poll is ever
made, and the sink stays empty — in particular no header is written. -/
theorem launch_failure_exits_nonzero_empty_sink (env : Env) (clock : Nat → Rat)
    (msg : String) (h : env.launch = Except.error msg) :
    (main_run env clock).exitCode = 1 ∧ (main_run env clock).exitCode ≠ 0 ∧
    (main_run env clock).sink = [] ∧ (main_run env clock).rows = [] ∧
    (main_run env clock).pollCount = 0 ∧ msg ∈ (main_run env clock).console := by
  simp [main_run, run_process, h]

theorem launch_failure_exits_nonzero_empty_sink_witness :
    envC6.launch = Except.error "No such file or directory" ∧
    (main_run envC6 clock0).exitCode = 1 ∧ (main_run envC6 clock0).sink = [] :=
  ⟨rfl, (launch_failure_exits_nonzero_empty_sink envC6 clock0 _ rfl).1,
    (launch_failure_exits_nonzero_empty_sink envC6 clock0 _ rfl).2.2.1⟩

/-- `stop_process` always leaves the child killed or exited. -/
theorem stop_process_killed_or_exited (s : ChildState) :
    (stop_process s).1 = ChildState.killed ∨ (stop_process s).1 = ChildState.exitedUnreaped := by
  cases s <;> simp [stop_process]

/-- Witness environment for claim C2: one success, then the run is
interrupted externally while the child is still alive. -/
def envC2 : Env :=
  { platformSystem := "Linux", executable := "/bin/sleep", interval := 1, verbose := false
  , launch := Except.ok pr0, polls := [PollOutcome.success m0], childAliveAtEnd := true }

/-- Claim C2: on every run whose launch succeeded — whichever way it ends
(clean process-gone exit, unhandled error, external interrupt) — the
registered cleanup runs exactly once and afterwards the child is not
running (it was killed, or had already exited and stays down). -/
theorem cleanup_runs_once_child_not_running (env : Env) (pr : Proc) (clock : Nat → Rat)
    (h : env.launch = Except.ok pr) :
    (main_run env clock).cleanupRuns = 1 ∧
    ((main_run env clock).childFinal = some ChildState.killed ∨
     (main_run env clock).childFinal = some ChildState.exitedUnreaped) := by
  rw [main_run_ok env pr clock h]
  refine ⟨by simp, ?_⟩
  cases hend : (samplingLoop pr.pid env.interval (detect_win env.platformSystem)
      clock env.polls 0).2.2 <;>
    cases hca : env.childAliveAtEnd <;>
      simp [hend, hca, stop_process]

theorem cleanup_runs_once_child_not_running_witness :
    envC2.launch = Except.ok pr0 ∧
    (main_run envC2 clock0).cleanupRuns = 1 ∧
    ((main_run envC2 clock0).childFinal = some ChildState.killed ∨
     (main_run envC2 clock0).childFinal = some ChildState.exitedUnreaped) :=
  ⟨rfl, (cleanup_runs_once_child_not_running envC2 pr0 clock0 rfl).1,
    (cleanup_runs_once_child_not_running envC2 pr0 clock0 rfl).2⟩

/-- Witness environment for claim C3: one success, then the process is gone. -/
def envC3 : Env :=
  { platformSystem := "Linux", executable := "/bin/sleep", interval := 1, verbose := false
  , launch := Except.ok pr0
  , polls := [PollOutcome.success m0, PollOutcome.processGone], childAliveAtEnd := true }

/-- Claim C3: when a sample call reports the target gone
(`psutil.NoSuchProcess`), the loop stops cleanly: one poll per success plus
the single failed poll and nothing after it, the rows are exactly those of
the preceding successes, the cleanup runs, the already-exited child stays
down, and the program exits with status 0. -/
theorem process_gone_clean_exit (env : Env) (pr : Proc) (clock : Nat → Rat)
    (ms : List ProcMetrics) (rest : List PollOutcome)
    (h : env.launch = Except.ok pr)
    (hp : env.polls = ms.map PollOutcome.success ++ PollOutcome.processGone :: rest) :
    (main_run env clock).exitCode = 0 ∧
    (main_run env clock).rows = rowsFor (detect_win env.platformSystem) clock ms 0 ∧
    (main_run env clock).pollCount = ms.length + 1 ∧
    (main_run env clock).cleanupRuns = 1 ∧
    (main_run env clock).childFinal = some ChildState.exitedUnreaped := by
  rw [main_run_ok env pr clock h]
  simp [hp, samplingLoop_gone, stop_process]

theorem process_gone_clean_exit_witness :
    envC3.launch = Except.ok pr0 ∧
    envC3.polls = [m0].map PollOutcome.success ++ PollOutcome.processGone :: [] ∧
    (main_run envC3 clock0).exitCode = 0 ∧
    (main_run envC3 clock0).pollCount = 1 + 1 ∧
    (main_run envC3 clock0).cleanupRuns = 1 :=
  ⟨rfl, rfl, (process_gone_clean_exit envC3 pr0 clock0 [m0] [] rfl rfl).1,
    (process_gone_clean_exit envC3 pr0 clock0 [m0] [] rfl rfl).2.2.1,
    (process_gone_clean_exit envC3 pr0 clock0 [m0] [] rfl rfl).2.2.2.1⟩

/-- Claim C4: the child-termination action is idempotent — called on a
running, already-exited or already-killed child it raises no exception,
and a second call raises no exception and changes nothing. -/
theorem stop_process_idempotent (s : ChildState) :
    (stop_process s).2 = none ∧
    stop_process (stop_process s).1 = stop_process s := by
  cases s <;> simp [stop_process]

/-- Claim C7: in a sample call made the way the running program makes
them — on the process bound to the module-global `p` — all four metrics
(CPU percent, both memory fields via one `memory_info`, and the
handle/descriptor count) are queried against that same process inside its
single active oneshot caching context: a logically-atomic snapshot with no
stray separately-contexted OS query. -/
theorem collect_data_atomic_snapshot (pr : Proc) (m : ProcMetrics) (interval : Rat)
    (win : Bool) (s : SampleDict) (evs : List QueryEvent)
    (hlive : pr.state = some m)
    (hcall : collect_data (some pr) pr interval win = Except.ok (s, evs)) :
    atomicSnapshot pr.pid evs = true ∧
    evs = [⟨pr.pid, pr.pid, QueryKind.cpuPercent⟩, ⟨pr.pid, pr.pid, QueryKind.memoryInfo⟩,
           ⟨pr.pid, pr.pid, if win then QueryKind.numHandles else QueryKind.numFds⟩] ∧
    s = sampleOf win m := by
  simp only [collect_data, hlive] at hcall
  obtain ⟨hs, hevs⟩ := by simpa using hcall
  subst hs
  subst hevs
  refine ⟨?_, rfl, rfl⟩
  simp [atomicSnapshot]

theorem collect_data_atomic_snapshot_witness :
    pr0.state = some m0 ∧
    collect_data (some pr0) pr0 1 false
      = Except.ok (sampleOf false m0,
          [⟨pr0.pid, pr0.pid, QueryKind.cpuPercent⟩,
           ⟨pr0.pid, pr0.pid, QueryKind.memoryInfo⟩,
           ⟨pr0.pid, pr0.pid, QueryKind.numFds⟩]) ∧
    atomicSnapshot pr0.pid
        [⟨pr0.pid, pr0.pid, QueryKind.cpuPercent⟩,
         ⟨pr0.pid, pr0.pid, QueryKind.memoryInfo⟩,
         ⟨pr0.pid, pr0.pid, QueryKind.numFds⟩] = true :=
  ⟨rfl, rfl, (collect_data_atomic_snapshot pr0 m0 1 false _ _ rfl rfl).1⟩

/-- Claim C9: in `write_line(f, d)` only the cpu field of the written row
comes from the argument `d`; the two memory fields and the handle field
come from the module-global `data`, and the timestamp is the clock value
read at write time.  Two calls with different `d` but the same global
`data` (and clock value) write rows that agree everywhere except possibly
the cpu field, and a call while the global is unbound raises `NameError`
(writing nothing). -/
theorem write_line_fields_from_global_data (g d1 d2 : SampleDict) (now : Rat)
    (r1 r2 : CsvRow)
    (h1 : write_line (some g) d1 now = Except.ok r1)
    (h2 : write_line (some g) d2 now = Except.ok r2) :
    (∀ (d0 : SampleDict) (now0 : Rat),
        write_line none d0 now0 = Except.error (PyError.nameError "data")) ∧
    r1.timestamp = now ∧ r1.cpu = d1.cpu ∧ r2.cpu = d2.cpu ∧
    r1.wss = g.memory.mem0 ∧ r1.rss = g.memory.mem1 ∧ r1.fil = g.files ∧
    r1.timestamp = r2.timestamp ∧ r1.wss = r2.wss ∧ r1.rss = r2.rss ∧ r1.fil = r2.fil := by
  simp only [write_line] at h1 h2
  obtain h1 := by simpa using h1
  obtain h2 := by simpa using h2
  subst h1
  subst h2
  simp [write_line]

/-- Global dict bound at the witness call of `write_line`. -/
def g0 : SampleDict := { cpu := 1, memory := { mem0 := 10, mem1 := 20 }, files := 7 }

/-- First argument dict for the witness call of `write_line`. -/
def d1w : SampleDict := { cpu := 2, memory := { mem0 := 11, mem1 := 21 }, files := 8 }

/-- Second argument dict for the witness call of `write_line`. -/
def d2w : SampleDict := { cpu := 3, memory := { mem0 := 12, mem1 := 22 }, files := 9 }

theorem write_line_fields_from_global_data_witness :
    write_line (some g0) d1w 5 = Except.ok ⟨5, 2, 10, 20, 7⟩ ∧
    write_line (some g0) d2w 5 = Except.ok ⟨5, 3, 10, 20, 7⟩ ∧
    (⟨5, 2, 10, 20, 7⟩ : CsvRow).wss = (⟨5, 3, 10, 20, 7⟩ : CsvRow).wss :=
  ⟨rfl, rfl,
    (write_line_fields_from_global_data g0 d1w d2w 5 _ _ rfl rfl).2.2.2.2.2.2.2.2.1⟩

/-- Claim C10: `collect_data` enters the oneshot caching context of the
module-global `p`, not of its `proc` parameter — every query it issues is
tagged with the global's pid as oneshot owner while targeting `proc` — and
calling it with the global `p` unbound raises `NameError` even when `proc`
is a valid live process. -/
theorem collect_data_oneshot_on_global_p (proc : Proc) (m : ProcMetrics) (interval : Rat)
    (win : Bool) (hlive : proc.state = some m) :
    collect_data none proc interval win = Except.error (PyError.nameError "p") ∧
    ∀ (pg : Proc) (s : SampleDict) (evs : List QueryEvent),
      collect_data (some pg) proc interval win = Except.ok (s, evs) →
      ∀ e ∈ evs, e.oneshotOwner = pg.pid ∧ e.target = proc.pid := by
  refine ⟨by simp [collect_data], ?_⟩
  intro pg s evs hcall e he
  simp only [collect_data, hlive] at hcall
  obtain ⟨hs, hevs⟩ := by simpa using hcall
  subst hevs
  simp only [List.mem_cons, List.not_mem_nil, or_false] at he
  rcases he with rfl | rfl | rfl <;> exact ⟨rfl, rfl⟩

theorem collect_data_oneshot_on_global_p_witness :
    pr0.state = some m0 ∧
    collect_data none pr0 1 false = Except.error (PyError.nameError "p") :=
  ⟨rfl, (collect_data_oneshot_on_global_p pr0 m0 1 false rfl).1⟩

/-- A strictly increasing clock stamps the rows of a run strictly
increasingly (each row's timestamp is the clock at its write index). -/
theorem rowsFor_timestamps_chain (win : Bool) (clock : Nat → Rat)
    (hmono : StrictMono clock) :
    ∀ (ms : List ProcMetrics) (n : Nat),
      List.Chain' (fun a b : Rat => a < b) ((rowsFor win clock ms n).map CsvRow.timestamp)
  | [], _ => by simp [rowsFor]
  | [_], _ => by simp [rowsFor]
  | m1 :: m2 :: ms, n => by
    have ih := rowsFor_timestamps_chain win clock hmono (m2 :: ms) (n + 1)
    simp only [rowsFor, List.map] at ih ⊢
    exact List.chain'_cons.mpr ⟨hmono (Nat.lt_succ_self n), ih⟩

/-- Claim C8, amended: each row's timestamp is the wall-clock value read at
its write; consecutive rows' timestamps are strictly increasing provided
the wall clock itself is strictly increasing across the successive
`datetime.now()` calls — the code adds no enforcement of its own. -/
theorem timestamps_strict_mono_of_clock_mono (env : Env) (pr : Proc) (clock : Nat → Rat)
    (h : env.launch = Except.ok pr) (hmono : StrictMono clock) :
    List.Chain' (fun a b : Rat => a < b)
      ((main_run env clock).rows.map CsvRow.timestamp) := by
  have hrows : (main_run env clock).rows
      = rowsFor (detect_win env.platformSystem) clock (successStreak env.polls) 0 := by
    rw [main_run_ok env pr clock h]
    simp [samplingLoop_rows]
  rw [hrows]
  exact rowsFor_timestamps_chain _ clock hmono _ 0

/-- The identity clock is strictly monotone. -/
theorem clock0_strictMono : StrictMono clock0 := by
  intro a b hab
  simp only [clock0]
  exact_mod_cast hab

/-- Witness environment for the amended claim C8: two successful polls. -/
def envC8 : Env :=
  { platformSystem := "Linux", executable := "/bin/sleep", interval := 1, verbose := false
  , launch := Except.ok pr0
  , polls := [PollOutcome.success m0, PollOutcome.success m0], childAliveAtEnd := true }

theorem timestamps_strict_mono_of_clock_mono_witness :
    envC8.launch = Except.ok pr0 ∧ StrictMono clock0 ∧
    List.Chain' (fun a b : Rat => a < b)
      ((main_run envC8 clock0).rows.map CsvRow.timestamp) :=
  ⟨rfl, clock0_strictMono,
    timestamps_strict_mono_of_clock_mono envC8 pr0 clock0 rfl clock0_strictMono⟩

/-- Metrics for the clock counterexample run. -/
def mCex : ProcMetrics :=
  { cpu_percent := 0, memory_info := { mem0 := 0, mem1 := 0 }, num_handles := 0, num_fds := 0 }

/-- Environment for the clock counterexample run: two successful polls. -/
def envCex : Env :=
  { platformSystem := "Linux", executable := "/bin/yes", interval := 1, verbose := false
  , launch := Except.ok ⟨7, some mCex⟩
  , polls := [PollOutcome.success mCex, PollOutcome.success mCex], childAliveAtEnd := true }

/-- Claim C8 as stated fails on the code: `datetime.now()` is a plain wall
clock the script does not constrain, so on a run where the clock returns
the same value for both write calls (finite resolution, or a clock step)
two consecutive successfully-written samples carry equal timestamps, not
strictly increasing ones. -/
theorem timestamps_not_strict_cex :
    ¬ List.Chain' (fun a b : Rat => a < b)
        ((main_run envCex (fun _ => 0)).rows.map CsvRow.timestamp) := by
  have hrows : (main_run envCex (fun _ => 0)).rows.map CsvRow.timestamp = [0, 0] := by
    rw [main_run_ok envCex ⟨7, some mCex⟩ (fun _ => 0) rfl]
    simp [samplingLoop_rows, envCex, successStreak, rowsFor, sampleOf]
  rw [hrows]
  simp [List.chain'_cons]

end Problem1
